import Mathlib

/-!
Shallow embedding of `src/utils/web-search.js` (c-flow): the multi-provider
web-search resolution pipeline.  External effects (HTTP fetch, JSON decoding,
clock, environment credential) are modelled as explicit inputs; everything
else is translated directly from the JavaScript source.  JavaScript regular
expressions are evaluated by a small backtracking engine (`matchK`) over an
explicit pattern AST, one pattern per regex literal in the source.
-/

namespace WebSearch

/-- JavaScript whitespace class `\s` (the code points relevant here). -/
def isJsSpace (c : Char) : Bool :=
  c = ' ' || c = '\t' || c = '\n' || c = '\r' || c = Char.ofNat 11 ||
  c = Char.ofNat 12 || c = Char.ofNat 0xa0 || c = Char.ofNat 0x2028 ||
  c = Char.ofNat 0x2029 || c = Char.ofNat 0xfeff

/-- JavaScript regex `.` (any char except line terminators). -/
def isRegexDot (c : Char) : Bool :=
  !(c = '\n' || c = '\r' || c = Char.ofNat 0x2028 || c = Char.ofNat 0x2029)

/-- `String.prototype.trim()`. -/
def jsTrim (s : String) : String :=
  ⟨((s.data.dropWhile isJsSpace).reverse.dropWhile isJsSpace).reverse⟩

/-- `String.prototype.substring(0, n)`. -/
def strTake (s : String) (n : Nat) : String := ⟨s.data.take n⟩

/-- `String.prototype.includes(sub)` (substring search). -/
def containsSub (hay needle : List Char) : Bool :=
  match hay with
  | [] => needle.isEmpty
  | _ :: t => needle.isPrefixOf hay || containsSub t needle

/-- First index at which `sep` occurs in `s` (for `String.prototype.split`). -/
def findSub (s sep : List Char) : Option Nat :=
  match s with
  | [] => if sep.isEmpty then some 0 else none
  | c :: t =>
    if sep.isPrefixOf (c :: t) then some 0
    else (findSub t sep).map (fun n => n + 1)

/-- Worker for `splitOnSub`; fuel bounds the number of separator occurrences. -/
def splitGo : Nat → List Char → List Char → List (List Char)
  | 0, s, _ => [s]
  | Nat.succ f, s, sep =>
    match findSub s sep with
    | none => [s]
    | some i => s.take i :: splitGo f (s.drop (i + sep.length)) sep

/-- `String.prototype.split(sep)` for a literal (non-regex) separator. -/
def splitOnSub (s sep : List Char) : List (List Char) :=
  if sep.isEmpty then s.map (fun c => [c]) else splitGo (s.length + 1) s sep

/-- Pattern AST: literal run, character-class repetition (`*` / `+`, greedy or
lazy), capture group, zero-width lookahead on the next character, and a single
optional character (for `https?`). -/
inductive RItem where
  | lit (ci : Bool) (cs : List Char)
  | cls (p : Char → Bool) (minOne : Bool) (lzy : Bool)
  | grp (idx : Nat) (sub : List RItem)
  | look (p : Option Char → Bool)
  | opt (ci : Bool) (c : Char)

/-- Capture records: (group index, start position, end position). -/
abbrev Caps := List (Nat × Nat × Nat)

/-- Case-insensitive character comparison when `ci` is set (`i` regex flag). -/
def charEqCi (ci : Bool) (a b : Char) : Bool :=
  if ci then a.toLower == b.toLower else a == b

/-- Does the literal `l` occur at position `pos` of `s`? -/
def litAt (s : List Char) (ci : Bool) (l : List Char) (pos : Nat) : Bool :=
  match l with
  | [] => true
  | c :: cs =>
    match (s.drop pos).head? with
    | some d => charEqCi ci d c && litAt s ci cs (pos + 1)
    | none => false

/-- Length of the run of characters satisfying `p` in `l`. -/
def countRunList (p : Char → Bool) : List Char → Nat
  | [] => 0
  | c :: t => if p c then countRunList p t + 1 else 0

/-- Length of the run of characters satisfying `p` starting at `pos`. -/
def countRun (s : List Char) (p : Char → Bool) (pos : Nat) : Nat :=
  countRunList p (s.drop pos)

/-- Candidate consumption lengths for a class repetition, in the order a
backtracking engine tries them (greedy: longest first; lazy: shortest first). -/
def clsLens (lzy : Bool) (minLen maxRun : Nat) : List Nat :=
  if maxRun < minLen then []
  else if lzy then (List.range (maxRun - minLen + 1)).map (fun k => minLen + k)
  else (List.range (maxRun - minLen + 1)).map (fun k => maxRun - k)

/-- First successful attempt among candidate lengths. -/
def firstSome (f : Nat → Option (Nat × Caps)) : List Nat → Option (Nat × Caps)
  | [] => none
  | n :: ns =>
    match f n with
    | some r => some r
    | none => firstSome f ns

/-- Backtracking matcher in continuation-passing style.  `fuel` bounds the
nesting depth of pattern items (any value at least the flattened pattern size
is enough; concrete calls use `engineFuel`). -/
def matchK (s : List Char) : Nat → List RItem → Nat → Caps →
    (Nat → Caps → Option (Nat × Caps)) → Option (Nat × Caps)
  | 0, _, _, _, _ => none
  | Nat.succ _, [], pos, caps, k => k pos caps
  | Nat.succ f, RItem.lit ci cs :: rest, pos, caps, k =>
    if litAt s ci cs pos then matchK s f rest (pos + cs.length) caps k else none
  | Nat.succ f, RItem.cls p minOne lzy :: rest, pos, caps, k =>
    firstSome (fun len => matchK s f rest (pos + len) caps k)
      (clsLens lzy (if minOne then 1 else 0) (countRun s p pos))
  | Nat.succ f, RItem.grp idx sub :: rest, pos, caps, k =>
    matchK s f sub pos caps
      (fun q caps2 => matchK s f rest q ((idx, pos, q) :: caps2) k)
  | Nat.succ f, RItem.look p :: rest, pos, caps, k =>
    if p (s.drop pos).head? then matchK s f rest pos caps k else none
  | Nat.succ f, RItem.opt ci c :: rest, pos, caps, k =>
    match (s.drop pos).head? with
    | some d =>
      if charEqCi ci d c then
        match matchK s f rest (pos + 1) caps k with
        | some r => some r
        | none => matchK s f rest pos caps k
      else matchK s f rest pos caps k
    | none => matchK s f rest pos caps k

/-- Engine fuel: an upper bound on the flattened size of every pattern below. -/
def engineFuel : Nat := 64

/-- One regex match: overall span plus capture-group spans. -/
structure RMatch where
  mstart : Nat
  mstop : Nat
  caps : Caps
deriving Repr, DecidableEq

/-- Attempt to match the pattern at exactly position `pos`. -/
def matchAt (s : List Char) (items : List RItem) (pos : Nat) :
    Option (Nat × Caps) :=
  matchK s engineFuel items pos [] (fun q caps => some (q, caps))

/-- Leftmost match at or after `pos` (fuel bounds the positions scanned). -/
def findMatch (s : List Char) (items : List RItem) : Nat → Nat → Option RMatch
  | 0, _ => none
  | Nat.succ f, pos =>
    if pos ≤ s.length then
      match matchAt s items pos with
      | some (q, caps) => some ⟨pos, q, caps⟩
      | none => findMatch s items f (pos + 1)
    else none

/-- All matches in order, as produced by repeated `exec` with the `g` flag:
each search resumes at the previous match's end. -/
def allMatches (s : List Char) (items : List RItem) : Nat → Nat → List RMatch
  | 0, _ => []
  | Nat.succ f, pos =>
    match findMatch s items (s.length + 1) pos with
    | none => []
    | some m => m :: allMatches s items f (max m.mstop (m.mstart + 1))

/-- All matches of a pattern over a string, from position 0. -/
def execAll (s : List Char) (items : List RItem) : List RMatch :=
  allMatches s items (s.length + 1) 0

/-- Text of capture group `idx` of a match over `s`. -/
def capStr (s : List Char) (caps : Caps) (idx : Nat) : String :=
  match caps.find? (fun c => c.1 = idx) with
  | some (_, a, b) => ⟨(s.drop a).take (b - a)⟩
  | none => ⟨[]⟩

/-- Rebuild a string from its non-matching segments with `repl` spliced in
(for `String.prototype.replace` with the `g` flag). -/
def spliceMatches (s repl : List Char) : List RMatch → Nat → List Char
  | [], last => s.drop last
  | m :: rest, last =>
    (s.drop last).take (m.mstart - last) ++ repl ++ spliceMatches s repl rest m.mstop

/-- `str.replace(pattern-with-g-flag, repl)`. -/
def regexReplaceAll (items : List RItem) (s repl : String) : String :=
  ⟨spliceMatches s.data repl.data (execAll s.data items) 0⟩

/-- Character class `[^>]`. -/
def nonGt (c : Char) : Bool := c ≠ '>'

/-- Character class `[^"]`. -/
def nonQuote (c : Char) : Bool := c ≠ '"'

/-- Character class `[^<]`. -/
def nonLt (c : Char) : Bool := c ≠ '<'

/-- `/<a[^>]*class="[^"]*result__a[^"]*"[^>]*href="([^"]*)"[^>]*>([^<]*)<\/a>/gi`
(line 175 of the source). -/
def modernRegex : List RItem := [
  RItem.lit true (("<a").data),
  RItem.cls nonGt false false,
  RItem.lit true (("class=\"").data),
  RItem.cls nonQuote false false,
  RItem.lit true (("result__a").data),
  RItem.cls nonQuote false false,
  RItem.lit true (("\"").data),
  RItem.cls nonGt false false,
  RItem.lit true (("href=\"").data),
  RItem.grp 1 [RItem.cls nonQuote false false],
  RItem.lit true (("\"").data),
  RItem.cls nonGt false false,
  RItem.lit true ((">").data),
  RItem.grp 2 [RItem.cls nonLt false false],
  RItem.lit true (("</a>").data)]

/-- `/<a[^>]*class="[^"]*result__snippet[^"]*"[^>]*>([^<]*)<\/a>/gi`
(line 176 of the source). -/
def snippetRegex : List RItem := [
  RItem.lit true (("<a").data),
  RItem.cls nonGt false false,
  RItem.lit true (("class=\"").data),
  RItem.cls nonQuote false false,
  RItem.lit true (("result__snippet").data),
  RItem.cls nonQuote false false,
  RItem.lit true (("\"").data),
  RItem.cls nonGt false false,
  RItem.lit true ((">").data),
  RItem.grp 1 [RItem.cls nonLt false false],
  RItem.lit true (("</a>").data)]

/-- `/<a[^>]*href="(https?:\/\/[^"]+)"[^>]*>([^<]+)<\/a>/gi`
(line 198 of the source). -/
def genericLinkRegex : List RItem := [
  RItem.lit true (("<a").data),
  RItem.cls nonGt false false,
  RItem.lit true (("href=\"").data),
  RItem.grp 1 [RItem.lit true (("http").data), RItem.opt true 's',
               RItem.lit true (("://").data), RItem.cls nonQuote true false],
  RItem.lit true (("\"").data),
  RItem.cls nonGt false false,
  RItem.lit true ((">").data),
  RItem.grp 2 [RItem.cls nonLt true false],
  RItem.lit true (("</a>").data)]

/-- `/\[(\d+)\]\s*(.+?)(?=\[|$)/g` (line 139 of the source). -/
def citationRegex : List RItem := [
  RItem.lit false (("[").data),
  RItem.grp 1 [RItem.cls Char.isDigit true false],
  RItem.lit false (("]").data),
  RItem.cls isJsSpace false false,
  RItem.grp 2 [RItem.cls isRegexDot true true],
  RItem.look (fun oc =>
    match oc with
    | some c => c = '['
    | none => true)]

/-- `/https?:\/\/[^\s\)]+/g` (line 140 of the source). -/
def urlRegex : List RItem := [
  RItem.lit false (("http").data),
  RItem.opt false 's',
  RItem.lit false (("://").data),
  RItem.cls (fun c => !(isJsSpace c || c = ')')) true false]

/-- `/<[^>]+>/g` (tag stripping, lines 186/193/204/307 of the source). -/
def tagRegex : List RItem := [
  RItem.lit true (("<").data),
  RItem.cls nonGt true false,
  RItem.lit true ((">").data)]

/-- `/<script[^>]*>[\s\S]*?<\/script>/gi` (line 305 of the source). -/
def scriptRegex : List RItem := [
  RItem.lit true (("<script").data),
  RItem.cls nonGt false false,
  RItem.lit true ((">").data),
  RItem.cls (fun _ => true) false true,
  RItem.lit true (("</script>").data)]

/-- `/<style[^>]*>[\s\S]*?<\/style>/gi` (line 306 of the source). -/
def styleRegex : List RItem := [
  RItem.lit true (("<style").data),
  RItem.cls nonGt false false,
  RItem.lit true ((">").data),
  RItem.cls (fun _ => true) false true,
  RItem.lit true (("</style>").data)]

/-- `/\s+/g` (whitespace collapsing, line 308 of the source). -/
def wsRegex : List RItem := [RItem.cls isJsSpace true false]

/-- `str.replace(/<[^>]+>/g, repl)` specialised to the empty replacement used
when cleaning titles and snippets. -/
def stripTags (s : String) : String := regexReplaceAll tagRegex s ⟨[]⟩

/-- A candidate link collected by the HTML extractor (`{ url, title }`). -/
structure LinkT where
  url : String
  title : String
deriving Repr, DecidableEq

/-- A normalized search result (`{ title, url, snippet, rank }`). -/
structure SearchResult where
  title : String
  url : String
  snippet : String
  rank : Nat
deriving Repr, DecidableEq

/-- Strategy-1 collection loop (lines 180-189): for each `modernRegex` match,
push `{url: match[1], title: clean(match[2])}` unless the URL is internal or
not scheme-qualified; the loop runs while fewer than `limit * 2` links are
collected. -/
def collectModernLinks (s : List Char) : List RMatch → Nat → List LinkT
  | [], _ => []
  | _ :: _, 0 => []
  | m :: rest, Nat.succ b =>
    let url := capStr s m.caps 1
    if !containsSub url.data (("duckduckgo.com").data) &&
       (("http").data).isPrefixOf url.data then
      ⟨url, stripTags (jsTrim (capStr s m.caps 2))⟩ :: collectModernLinks s rest b
    else collectModernLinks s rest (Nat.succ b)

/-- Snippet collection loop (lines 191-194): every `snippetRegex` match is
pushed (cleaned), up to `limit * 2` snippets. -/
def collectSnippets (s : List Char) : List RMatch → Nat → List String
  | [], _ => []
  | _ :: _, 0 => []
  | m :: rest, Nat.succ b =>
    stripTags (jsTrim (capStr s m.caps 1)) :: collectSnippets s rest b

/-- Strategy-2 collection loop (lines 197-208): for each `genericLinkRegex`
match, push unless the URL is internal or a `javascript:` link, with the same
`limit * 2` cap. -/
def collectGenericLinks (s : List Char) : List RMatch → Nat → List LinkT
  | [], _ => []
  | _ :: _, 0 => []
  | m :: rest, Nat.succ b =>
    let url := capStr s m.caps 1
    if !containsSub url.data (("duckduckgo.com").data) &&
       !containsSub url.data (("javascript:").data) then
      ⟨url, stripTags (jsTrim (capStr s m.caps 2))⟩ :: collectGenericLinks s rest b
    else collectGenericLinks s rest (Nat.succ b)

/-- Primary-strategy link scan of `parseDuckDuckGoResults` (`cap = limit * 2`). -/
def scanResultLinks (html : String) (cap : Nat) : List LinkT :=
  collectModernLinks html.data (execAll html.data modernRegex) cap

/-- Snippet scan of `parseDuckDuckGoResults` (`cap = limit * 2`). -/
def scanSnippets (html : String) (cap : Nat) : List String :=
  collectSnippets html.data (execAll html.data snippetRegex) cap

/-- Fallback-strategy link scan of `parseDuckDuckGoResults` (`cap = limit * 2`). -/
def scanGenericLinks (html : String) (cap : Nat) : List LinkT :=
  collectGenericLinks html.data (execAll html.data genericLinkRegex) cap

/-- `snippets[i] || snippets[i - 1] || ''` (line 213): JavaScript `||` also
skips an *empty* string, and `snippets[-1]` is undefined. -/
def snippetAt (snippets : List String) (i : Nat) : String :=
  let fst := (snippets.get? i).getD ⟨[]⟩
  if !fst.data.isEmpty then fst
  else if i = 0 then ⟨[]⟩
  else (snippets.get? (i - 1)).getD ⟨[]⟩

/-- Body of the combining loop (lines 211-224) at index `i`. -/
def mkResult (snippets : List String) (link : LinkT) (i : Nat) : SearchResult :=
  let snippet := snippetAt snippets i
  let cleanUrl : String := ⟨(link.url.data.takeWhile (· ≠ '&')).takeWhile (· ≠ '?')⟩
  { title := if link.title.data.isEmpty then ("Result ") ++ toString (i + 1) else link.title
    url := cleanUrl
    snippet := strTake snippet 300
    rank := i + 1 }

/-- The combining loop of lines 211-224, with `i` the running index. -/
def combineGo (snippets : List String) : List LinkT → Nat → List SearchResult
  | [], _ => []
  | l :: ls, i => mkResult snippets l i :: combineGo snippets ls (i + 1)

/-- Lines 211-224: pair the first `min(links.length, limit)` links with
snippets positionally and assign 1-based ranks. -/
def combineResults (links : List LinkT) (snippets : List String) (limit : Nat) :
    List SearchResult :=
  combineGo snippets (links.take limit) 0

/-- The scanning phase of `parseDuckDuckGoResults` (lines 174-208): primary
strategy, fallback on zero links, snippet scan. -/
def ddgScanPhase (html : String) (limit : Nat) : List LinkT × List String :=
  let links1 := scanResultLinks html (limit * 2)
  let links := if links1.isEmpty then scanGenericLinks html (limit * 2) else links1
  (links, scanSnippets html (limit * 2))

/-- The `try`/`catch` of lines 173-227: the scanning phase is the only part
that could raise (modelled by the `Except`); at the moment such an exception
would be caught, the `results` array is still empty, so the `catch` arm
returns `[]`. -/
def parseDuckDuckGoResultsGuarded (scanOutcome : Except String (List LinkT × List String))
    (limit : Nat) : List SearchResult :=
  match scanOutcome with
  | Except.error _ => []
  | Except.ok (links, snippets) => combineResults links snippets limit

/-- `parseDuckDuckGoResults(html, limit)` (lines 170-230). -/
def parseDuckDuckGoResults (html : String) (limit : Nat) : List SearchResult :=
  parseDuckDuckGoResultsGuarded (Except.ok (ddgScanPhase html limit)) limit

/-- The per-citation loop of `parsePerplexityResults` (lines 145-161):
`b` is the remaining budget (`limit - results.length`), `rank` the next rank. -/
def perplexityGo (s : List Char) : List RMatch → Nat → Nat → List SearchResult
  | [], _, _ => []
  | _ :: _, 0, _ => []
  | m :: rest, Nat.succ b, rank =>
    let citationText := jsTrim (capStr s m.caps 2)
    match execAll citationText.data urlRegex with
    | [] => perplexityGo s rest (Nat.succ b) rank
    | u :: _ =>
      let urlStr : String := ⟨(citationText.data.drop u.mstart).take (u.mstop - u.mstart)⟩
      if urlStr.data.isEmpty then perplexityGo s rest (Nat.succ b) rank
      else
        let parts := splitOnSub citationText.data urlStr.data
        let titleTrimmed := jsTrim ⟨(parts.get? 0).getD []⟩
        let snippet0 :=
          match parts.get? 1 with
          | some p => jsTrim ⟨p⟩
          | none => (⟨[]⟩ : String)
        { title := if titleTrimmed.data.isEmpty then ("Result ") ++ toString rank
                   else titleTrimmed
          url := urlStr
          snippet := strTake snippet0 200
          rank := rank } :: perplexityGo s rest b (rank + 1)

/-- `parsePerplexityResults(content, limit)` (lines 135-164). -/
def parsePerplexityResults (content : String) (limit : Nat) : List SearchResult :=
  perplexityGo content.data (execAll content.data citationRegex) limit 1

/-- An HTTP response as this module consumes it: `ok`, `statusText`, and the
payload text (`response.text()`, or for the Perplexity call the extracted
`data.choices[0]?.message?.content || ''`).  An outbound call is modelled as
`Except String HttpResponse`: `Except.error` is a rejected fetch (network
failure, timeout, or a failing `response.json()`). -/
structure HttpResponse where
  ok : Bool
  statusText : String
  body : String
deriving Repr, DecidableEq

/-- The envelope returned by `searchWeb` (the perplexity and duckduckgo
branches build it without an `error` field, modelled as `none`). -/
structure SearchEnvelope where
  query : String
  results : List SearchResult
  total : Nat
  timestamp : String
  source : String
  error : Option String
deriving Repr, DecidableEq

/-- JavaScript truthiness of `process.env.PERPLEXITY_API_KEY`: absent or the
empty string is falsy. -/
def keyTruthy : Option String → Bool
  | none => false
  | some s => !s.data.isEmpty

/-- `searchWithPerplexity(query, { limit })` (lines 82-130), with the API key
and the outcome of the `fetch` to the chat-completions endpoint as explicit
inputs.  A thrown error is the `Except.error` case. -/
def searchWithPerplexity (apiKey : Option String) (presp : Except String HttpResponse)
    (query : String) (limit : Nat) (now : String) : Except String SearchEnvelope :=
  if !keyTruthy apiKey then Except.error ("PERPLEXITY_API_KEY not set")
  else
    match presp with
    | Except.error e => Except.error e
    | Except.ok r =>
      if !r.ok then
        Except.error (("Perplexity API error: ") ++ r.statusText ++ (" - ") ++ r.body)
      else
        let results := parsePerplexityResults r.body limit
        Except.ok ⟨query, results, results.length, now, ("perplexity"), none⟩

/-- The DuckDuckGo `try`/`catch` of `searchWeb` (lines 36-76), with the
outcome of the `fetch` to the HTML endpoint as an explicit input. -/
def duckDuckGoBranch (dresp : Except String HttpResponse) (query : String)
    (limit : Nat) (now : String) : SearchEnvelope :=
  match dresp with
  | Except.error e => ⟨query, [], 0, now, ("none"), some e⟩
  | Except.ok r =>
    if !r.ok then
      ⟨query, [], 0, now, ("none"), some (("Search failed: ") ++ r.statusText)⟩
    else
      let results := parseDuckDuckGoResults r.body limit
      ⟨query, results, results.length, now, ("duckduckgo"), none⟩

/-- `searchWeb(query, options)` (lines 23-77): try Perplexity when the key is
truthy, catching any failure; otherwise (or on failure) fall back to the
DuckDuckGo branch, whose own failures terminate in the `source: 'none'`
envelope. -/
def searchWeb (apiKey : Option String) (presp dresp : Except String HttpResponse)
    (query : String) (limit : Nat) (now : String) : SearchEnvelope :=
  if keyTruthy apiKey then
    match searchWithPerplexity apiKey presp query limit now with
    | Except.ok env => env
    | Except.error _ => duckDuckGoBranch dresp query limit now
  else duckDuckGoBranch dresp query limit now

/-- The envelope returned by `searchWebMultiple` (lines 240-245). -/
structure MultiQueryEnvelope where
  queries : List String
  results : List SearchEnvelope
  totalResults : Nat
  timestamp : String
deriving Repr, DecidableEq

/-- Per-query network oracle for the fan-out: each query's `searchWeb` call
performs its own fetches. -/
structure QueryOracle where
  presp : Except String HttpResponse
  dresp : Except String HttpResponse

/-- `searchWebMultiple(queries, options)` (lines 235-246): `Promise.all` over
`queries.map(query => searchWeb(query, options))` joins positionally, then
`results.reduce((sum, r) => sum + r.total, 0)`. -/
def searchWebMultiple (apiKey : Option String) (orc : String → QueryOracle)
    (queries : List String) (limit : Nat) (now : String) : MultiQueryEnvelope :=
  let results := queries.map (fun query =>
    searchWeb apiKey (orc query).presp (orc query).dresp query limit now)
  ⟨queries, results, results.foldl (fun sum r => sum + r.total) 0, now⟩

/-- Text extraction of `fetchWebPage` (lines 304-311): strip scripts, styles,
then all tags to spaces, collapse whitespace, trim, truncate to 10000. -/
def extractText (html : String) : String :=
  let s1 := regexReplaceAll scriptRegex html ⟨[]⟩
  let s2 := regexReplaceAll styleRegex s1 ⟨[]⟩
  let s3 := regexReplaceAll tagRegex s2 (" ")
  let s4 := regexReplaceAll wsRegex s3 (" ")
  strTake (jsTrim s4) 10000

/-- `fetchWebPage(url)` (lines 288-315): the outer `catch` rewraps every
failure as `Failed to fetch {url}: {message}`. -/
def fetchWebPage (resp : Except String HttpResponse) (url : String) :
    Except String String :=
  match
    (match resp with
     | Except.error e => Except.error e
     | Except.ok r =>
       if !r.ok then Except.error (("Failed to fetch: ") ++ r.statusText)
       else Except.ok (extractText r.body)) with
  | Except.ok t => Except.ok t
  | Except.error e =>
    Except.error (("Failed to fetch ") ++ url ++ (": ") ++ e)

/-- A search result paired with fetched content (`{...result, content}` or
`{...result, content: null, fetchError}`, lines 263-274). -/
structure EnrichedResult where
  title : String
  url : String
  snippet : String
  rank : Nat
  content : Option String
  fetchError : Option String
deriving Repr, DecidableEq

/-- The envelope returned by `searchAndFetch` (lines 277-282). -/
structure EnrichmentEnvelope where
  query : String
  searchResults : List SearchResult
  fetchedContent : List EnrichedResult
  timestamp : String
deriving Repr, DecidableEq

/-- The loop body of lines 260-275: fetch one result's page, pairing the
result with truncated content on success or with `content: null` and a
`fetchError` on failure. -/
def enrichResult (pageResp : Except String HttpResponse) (r : SearchResult) :
    EnrichedResult :=
  match fetchWebPage pageResp r.url with
  | Except.ok content => ⟨r.title, r.url, r.snippet, r.rank, some (strTake content 5000), none⟩
  | Except.error e => ⟨r.title, r.url, r.snippet, r.rank, none, some e⟩

/-- `searchAndFetch(query, options)` (lines 251-283), with `pageOrc` giving
the fetch outcome per result URL. -/
def searchAndFetch (apiKey : Option String) (presp dresp : Except String HttpResponse)
    (pageOrc : String → Except String HttpResponse) (query : String)
    (fetchCount : Nat) (now : String) : EnrichmentEnvelope :=
  let sr := searchWeb apiKey presp dresp query fetchCount now
  let fetchedContent := (sr.results.take fetchCount).map
    (fun r => enrichResult (pageOrc r.url) r)
  ⟨query, sr.results, fetchedContent, now⟩

/-! ## Helper lemmas -/

theorem strTake_length_le (s : String) (n : Nat) : (strTake s n).length ≤ n := by
  show (s.data.take n).length ≤ n
  rw [List.length_take]
  exact Nat.min_le_left _ _

theorem combineGo_length (sn : List String) (ls : List LinkT) (i : Nat) :
    (combineGo sn ls i).length = ls.length := by
  induction ls generalizing i with
  | nil => rfl
  | cons l t ih => simp [combineGo, ih]

theorem combineGo_rank (sn : List String) (ls : List LinkT) (i j : Nat)
    (h : j < (combineGo sn ls i).length) :
    ((combineGo sn ls i).get ⟨j, h⟩).rank = i + j + 1 := by
  induction ls generalizing i j with
  | nil => simp [combineGo] at h
  | cons l t ih =>
    cases j with
    | zero => simp [combineGo, mkResult]
    | succ j2 =>
      have h2 : j2 < (combineGo sn t (i + 1)).length := by
        simp only [combineGo, List.length_cons] at h
        omega
      have ihx := ih (i + 1) j2 h2
      have hstep : (combineGo sn (l :: t) i).get ⟨j2 + 1, h⟩
          = (combineGo sn t (i + 1)).get ⟨j2, h2⟩ := rfl
      rw [hstep, ihx]
      omega

theorem combineGo_snippet (sn : List String) (ls : List LinkT) (i : Nat)
    (r : SearchResult) (h : r ∈ combineGo sn ls i) : r.snippet.length ≤ 300 := by
  induction ls generalizing i with
  | nil => simp [combineGo] at h
  | cons l t ih =>
    simp only [combineGo, List.mem_cons] at h
    rcases h with h | h
    · have : r.snippet = strTake (snippetAt sn i) 300 := by rw [h]; rfl
      rw [this]
      exact strTake_length_le _ _
    · exact ih _ h

theorem parseDDG_eq_combineGo (html : String) (limit : Nat) :
    parseDuckDuckGoResults html limit =
      combineGo (ddgScanPhase html limit).2 ((ddgScanPhase html limit).1.take limit) 0 :=
  rfl

theorem duckDuckGoBranch_query (dresp : Except String HttpResponse)
    (q : String) (l : Nat) (n : String) : (duckDuckGoBranch dresp q l n).query = q := by
  unfold duckDuckGoBranch
  rcases dresp with e | r
  · rfl
  · by_cases h : r.ok <;> simp [h]

theorem searchWithPerplexity_query (apiKey : Option String)
    (presp : Except String HttpResponse) (q : String) (l : Nat) (n : String)
    (env : SearchEnvelope) (h : searchWithPerplexity apiKey presp q l n = Except.ok env) :
    env.query = q := by
  unfold searchWithPerplexity at h
  by_cases hk : keyTruthy apiKey
  · rcases presp with e | r
    · simp [hk] at h
    · by_cases ho : r.ok
      · simp [hk, ho] at h
        rw [← h]
      · simp [hk, ho] at h
  · simp [hk] at h

theorem searchWeb_query (apiKey : Option String) (presp dresp : Except String HttpResponse)
    (q : String) (l : Nat) (n : String) : (searchWeb apiKey presp dresp q l n).query = q := by
  unfold searchWeb
  by_cases hk : keyTruthy apiKey
  · simp only [hk, if_true]
    cases hp : searchWithPerplexity apiKey presp q l n with
    | ok env => exact searchWithPerplexity_query apiKey presp q l n env hp
    | error e => exact duckDuckGoBranch_query dresp q l n
  · simp only [hk, Bool.false_eq_true, if_false]
    exact duckDuckGoBranch_query dresp q l n

theorem foldl_total_sum (l : List SearchEnvelope) (n : Nat) :
    l.foldl (fun sum r => sum + r.total) n = n + (l.map SearchEnvelope.total).sum := by
  induction l generalizing n with
  | nil => simp
  | cons e t ih => simp [List.foldl, ih]; omega

theorem searchWithPerplexity_ok_shape (apiKey : Option String)
    (presp : Except String HttpResponse) (q : String) (l : Nat) (n : String)
    (env : SearchEnvelope) (h : searchWithPerplexity apiKey presp q l n = Except.ok env) :
    ∃ rs : List SearchResult, env = ⟨q, rs, rs.length, n, ("perplexity"), none⟩ := by
  unfold searchWithPerplexity at h
  by_cases hk : keyTruthy apiKey
  · rcases presp with e | r
    · simp [hk] at h
    · by_cases ho : r.ok
      · simp [hk, ho] at h
        exact ⟨parsePerplexityResults r.body l, h.symm⟩
      · simp [hk, ho] at h
  · simp [hk] at h

theorem duckDuckGoBranch_source (dresp : Except String HttpResponse)
    (q : String) (l : Nat) (n : String) :
    (duckDuckGoBranch dresp q l n).source = ("duckduckgo") ∨
    (duckDuckGoBranch dresp q l n).source = ("none") := by
  unfold duckDuckGoBranch
  rcases dresp with e | r
  · exact Or.inr rfl
  · by_cases h : r.ok
    · simp [h]
    · simp [h]

theorem duckDuckGoBranch_invariant (dresp : Except String HttpResponse)
    (q : String) (l : Nat) (n : String) :
    (duckDuckGoBranch dresp q l n).source = ("none") ↔
      (duckDuckGoBranch dresp q l n).error.isSome ∧
      (duckDuckGoBranch dresp q l n).results = [] := by
  unfold duckDuckGoBranch
  rcases dresp with e | r
  · simp
  · by_cases h : r.ok
    · simp only [h]
      constructor
      · intro hs
        exact absurd hs (by simp)
      · intro ⟨hs, _⟩
        simp at hs
    · simp [h]

theorem searchWeb_of_api_error (apiKey : Option String)
    (presp dresp : Except String HttpResponse) (q : String) (l : Nat) (n : String)
    (e : String) (hfail : searchWithPerplexity apiKey presp q l n = Except.error e) :
    searchWeb apiKey presp dresp q l n = duckDuckGoBranch dresp q l n := by
  unfold searchWeb
  by_cases hk : keyTruthy apiKey
  · simp only [hk, if_true, hfail]
  · simp only [hk, Bool.false_eq_true, if_false]

/-! ## Claims -/

/-- C1: for every HTML string and every limit `L ≥ 1`, `parseDuckDuckGoResults`
returns at most `L` results, and the `rank` of the `i`-th returned result is
exactly `i + 1` — so ranks are `1..length` in order with no gaps or repeats. -/
theorem claim_C1_html_extractor_rank_contiguous (html : String) (L : Nat) (hL : 1 ≤ L) :
    (parseDuckDuckGoResults html L).length ≤ L ∧
    ∀ (i : Nat) (h : i < (parseDuckDuckGoResults html L).length),
      ((parseDuckDuckGoResults html L).get ⟨i, h⟩).rank = i + 1 := by
  constructor
  · rw [parseDDG_eq_combineGo, combineGo_length, List.length_take]
    exact Nat.min_le_left _ _
  · intro i h
    have h2 := h
    rw [parseDDG_eq_combineGo] at h2
    have := combineGo_rank (ddgScanPhase html L).2 ((ddgScanPhase html L).1.take L) 0 i h2
    simp only [parseDDG_eq_combineGo]
    omega

/-- Witness for C1 at a concrete page and limit 2. -/
theorem claim_C1_html_extractor_rank_contiguous_witness :
    1 ≤ 2 ∧
    ((parseDuckDuckGoResults
        ("<a class=\"result__a\" href=\"http://ex.com/p?a=1\">Title</a>") 2).length ≤ 2 ∧
      ∀ (i : Nat) (h : i < (parseDuckDuckGoResults
          ("<a class=\"result__a\" href=\"http://ex.com/p?a=1\">Title</a>") 2).length),
        ((parseDuckDuckGoResults
          ("<a class=\"result__a\" href=\"http://ex.com/p?a=1\">Title</a>") 2).get ⟨i, h⟩).rank
          = i + 1) :=
  ⟨by decide,
   claim_C1_html_extractor_rank_contiguous
     ("<a class=\"result__a\" href=\"http://ex.com/p?a=1\">Title</a>") 2 (by decide)⟩

/-- C3: the extractor never throws.  In this embedding the only operations the
source performs that could raise are in the scanning phase (regex evaluation),
whose hypothetical failure is modelled as the `Except.error` branch of
`parseDuckDuckGoResultsGuarded`; the `catch` arm of lines 225-229 then returns
the still-empty `results` array, and on the non-throwing path the extractor is
the total function `parseDuckDuckGoResults`. -/
theorem claim_C3_extractor_never_throws :
    (∀ (e : String) (limit : Nat),
      parseDuckDuckGoResultsGuarded (Except.error e) limit = []) ∧
    (∀ (html : String) (limit : Nat),
      parseDuckDuckGoResults html limit =
        parseDuckDuckGoResultsGuarded (Except.ok (ddgScanPhase html limit)) limit) :=
  ⟨fun _ _ => rfl, fun _ _ => rfl⟩

/-- C7: when the primary strategy collects zero links, the extractor's output
is exactly the combination built from the fallback generic-anchor scan, which
runs with the same `limit * 2` candidate cap. -/
theorem claim_C7_fallback_strategy (html : String) (limit : Nat)
    (h : scanResultLinks html (limit * 2) = []) :
    parseDuckDuckGoResults html limit =
      combineResults (scanGenericLinks html (limit * 2))
        (scanSnippets html (limit * 2)) limit := by
  unfold parseDuckDuckGoResults parseDuckDuckGoResultsGuarded ddgScanPhase
  simp [h]

/-- Witness for C7 on a page whose only anchor lacks the `result__a` class. -/
theorem claim_C7_fallback_strategy_witness :
    scanResultLinks ("<a href=\"http://x.com\">t</a>") (1 * 2) = [] ∧
    parseDuckDuckGoResults ("<a href=\"http://x.com\">t</a>") 1 =
      combineResults (scanGenericLinks ("<a href=\"http://x.com\">t</a>") (1 * 2))
        (scanSnippets ("<a href=\"http://x.com\">t</a>") (1 * 2)) 1 :=
  ⟨by decide, claim_C7_fallback_strategy ("<a href=\"http://x.com\">t</a>") 1 (by decide)⟩

/-- C9: citation extraction on the documented example text with limit 10
yields exactly the two claimed results. -/
theorem claim_C9_citation_extraction_example :
    parsePerplexityResults
        ("[1] Example Site https://example.com more info [2] Other https://other.com data")
        10 =
      [⟨("Example Site"), ("https://example.com"), ("more info"), 1⟩,
       ⟨("Other"), ("https://other.com"), ("data"), 2⟩] := by
  decide

/-- C10: every result the HTML extractor produces carries a snippet of at most
300 characters (the `snippet.substring(0, 300)` of line 221). -/
theorem claim_C10_snippet_bounded (html : String) (limit : Nat) (r : SearchResult)
    (hr : r ∈ parseDuckDuckGoResults html limit) : r.snippet.length ≤ 300 := by
  rw [parseDDG_eq_combineGo] at hr
  exact combineGo_snippet _ _ _ _ hr

/-- Witness for C10 at a concrete page containing one result with a snippet. -/
theorem claim_C10_snippet_bounded_witness :
    (⟨("Title"), ("http://ex.com/p"), ("Snip"), 1⟩ : SearchResult) ∈
      parseDuckDuckGoResults
        ("<a class=\"result__a\" href=\"http://ex.com/p?a=1\">Title</a><a class=\"result__snippet\">Snip</a>") 5 ∧
    (⟨("Title"), ("http://ex.com/p"), ("Snip"), 1⟩ : SearchResult).snippet.length ≤ 300 :=
  ⟨by decide,
   claim_C10_snippet_bounded
     ("<a class=\"result__a\" href=\"http://ex.com/p?a=1\">Title</a><a class=\"result__snippet\">Snip</a>")
     5 ⟨("Title"), ("http://ex.com/p"), ("Snip"), 1⟩ (by decide)⟩

/-- C2: every envelope returned by `searchWeb` satisfies
`source = "none"` (the spec's `none`) iff `error` is present and `results` is
empty; and a successful DuckDuckGo response (the spec's markup provider) whose
body yields zero extractable results produces the empty *success* envelope
`{results: [], total: 0, source: "duckduckgo"}` with no error. -/
theorem claim_C2_envelope_source_invariant (apiKey : Option String)
    (presp dresp : Except String HttpResponse) (q : String) (l : Nat) (n : String) :
    ((searchWeb apiKey presp dresp q l n).source = ("none") ↔
      (searchWeb apiKey presp dresp q l n).error.isSome ∧
      (searchWeb apiKey presp dresp q l n).results = []) ∧
    (∀ r : HttpResponse,
      (keyTruthy apiKey = false ∨
        ∃ e, searchWithPerplexity apiKey presp q l n = Except.error e) →
      dresp = Except.ok r → r.ok = true → parseDuckDuckGoResults r.body l = [] →
      searchWeb apiKey presp dresp q l n = ⟨q, [], 0, n, ("duckduckgo"), none⟩) := by
  constructor
  · unfold searchWeb
    by_cases hk : keyTruthy apiKey
    · simp only [hk, if_true]
      cases hp : searchWithPerplexity apiKey presp q l n with
      | ok env =>
        obtain ⟨rs, henv⟩ := searchWithPerplexity_ok_shape apiKey presp q l n env hp
        subst henv
        constructor
        · intro hs
          exact absurd hs (by simp)
        · intro ⟨hs, _⟩
          simp at hs
      | error e => exact duckDuckGoBranch_invariant dresp q l n
    · simp only [hk, Bool.false_eq_true, if_false]
      exact duckDuckGoBranch_invariant dresp q l n
  · intro r hdeg hok hrok hzero
    have hddg : duckDuckGoBranch dresp q l n = ⟨q, [], 0, n, ("duckduckgo"), none⟩ := by
      unfold duckDuckGoBranch
      rw [hok]
      simp [hrok, hzero]
    rcases hdeg with hk | ⟨e, hfail⟩
    · unfold searchWeb
      rw [hk]
      simpa using hddg
    · rw [searchWeb_of_api_error apiKey presp dresp q l n e hfail]
      exact hddg

/-- Witness for C2: no credential, a successful DuckDuckGo response whose body
contains no extractable anchors. -/
theorem claim_C2_envelope_source_invariant_witness :
    searchWeb none (Except.error ("x"))
        (Except.ok ⟨true, ("OK"), ("plain text, no anchors")⟩) ("q") 1 ("t") =
      ⟨("q"), [], 0, ("t"), ("duckduckgo"), none⟩ :=
  (claim_C2_envelope_source_invariant none (Except.error ("x"))
      (Except.ok ⟨true, ("OK"), ("plain text, no anchors")⟩) ("q") 1 ("t")).2
    ⟨true, ("OK"), ("plain text, no anchors")⟩ (Or.inl rfl) rfl rfl (by decide)

/-- C4: if `searchWithPerplexity` throws, `searchWeb` does not propagate the
exception: it evaluates to the DuckDuckGo fallback branch, whose envelope has
`source` equal to `"duckduckgo"` or `"none"` — never `"perplexity"` (the
spec's api-provider).  Totality of `searchWeb` for every combination of
adapter outcomes is the totality of this Lean function. -/
theorem claim_C4_api_failure_fallback (apiKey : Option String)
    (presp dresp : Except String HttpResponse) (q : String) (l : Nat) (n : String)
    (e : String) (hfail : searchWithPerplexity apiKey presp q l n = Except.error e) :
    searchWeb apiKey presp dresp q l n = duckDuckGoBranch dresp q l n ∧
    (searchWeb apiKey presp dresp q l n).source ≠ ("perplexity") ∧
    ((searchWeb apiKey presp dresp q l n).source = ("duckduckgo") ∨
      (searchWeb apiKey presp dresp q l n).source = ("none")) := by
  have hfb := searchWeb_of_api_error apiKey presp dresp q l n e hfail
  refine ⟨hfb, ?_, ?_⟩
  · rw [hfb]
    rcases duckDuckGoBranch_source dresp q l n with hs | hs <;> rw [hs] <;> decide
  · rw [hfb]
    exact duckDuckGoBranch_source dresp q l n

/-- Witness for C4: a configured key whose API fetch rejects. -/
theorem claim_C4_api_failure_fallback_witness :
    searchWeb (some ("k")) (Except.error ("boom"))
        (Except.ok ⟨true, ("OK"), ("")⟩) ("q") 1 ("t") =
      duckDuckGoBranch (Except.ok ⟨true, ("OK"), ("")⟩) ("q") 1 ("t") ∧
    (searchWeb (some ("k")) (Except.error ("boom"))
        (Except.ok ⟨true, ("OK"), ("")⟩) ("q") 1 ("t")).source ≠ ("perplexity") ∧
    ((searchWeb (some ("k")) (Except.error ("boom"))
        (Except.ok ⟨true, ("OK"), ("")⟩) ("q") 1 ("t")).source = ("duckduckgo") ∨
      (searchWeb (some ("k")) (Except.error ("boom"))
        (Except.ok ⟨true, ("OK"), ("")⟩) ("q") 1 ("t")).source = ("none")) :=
  claim_C4_api_failure_fallback (some ("k")) (Except.error ("boom"))
    (Except.ok ⟨true, ("OK"), ("")⟩) ("q") 1 ("t") ("boom") rfl

/-- C5: with no API credential, `searchWeb` is exactly the DuckDuckGo branch:
it never invokes the API adapter (the result does not depend on the API
fetch's outcome), and the envelope's `source` is `"duckduckgo"` or `"none"`. -/
theorem claim_C5_no_credential_skips_api (presp presp2 dresp : Except String HttpResponse)
    (q : String) (l : Nat) (n : String) :
    searchWeb none presp dresp q l n = duckDuckGoBranch dresp q l n ∧
    searchWeb none presp dresp q l n = searchWeb none presp2 dresp q l n ∧
    ((searchWeb none presp dresp q l n).source = ("duckduckgo") ∨
      (searchWeb none presp dresp q l n).source = ("none")) := by
  refine ⟨rfl, rfl, ?_⟩
  exact duckDuckGoBranch_source dresp q l n

/-- C6: `searchWebMultiple` returns one envelope per query, positionally
aligned (`results[i].query = queries[i]`), and `totalResults` is the sum of
the envelopes' `total` fields. -/
theorem claim_C6_multi_query_alignment (apiKey : Option String)
    (orc : String → QueryOracle) (queries : List String) (limit : Nat) (now : String) :
    (searchWebMultiple apiKey orc queries limit now).results.length = queries.length ∧
    (∀ i : Nat,
      ((searchWebMultiple apiKey orc queries limit now).results.get? i).map
          SearchEnvelope.query = queries.get? i) ∧
    (searchWebMultiple apiKey orc queries limit now).totalResults =
      ((searchWebMultiple apiKey orc queries limit now).results.map
        SearchEnvelope.total).sum := by
  refine ⟨by simp [searchWebMultiple], ?_, ?_⟩
  · intro i
    show ((queries.map fun query =>
        searchWeb apiKey (orc query).presp (orc query).dresp query limit now).get? i).map
          SearchEnvelope.query = queries.get? i
    rw [List.get?_map]
    cases hq : queries.get? i with
    | none => rfl
    | some q => simp [searchWeb_query]
  · show (queries.map fun query =>
        searchWeb apiKey (orc query).presp (orc query).dresp query limit now).foldl
          (fun sum r => sum + r.total) 0 = _
    rw [foldl_total_sum]
    simp [searchWebMultiple]

/-- C8: in `searchAndFetch`, the enriched list is positionally aligned with
the first `fetchCount` search results and has their full length (a failure
never aborts the remaining items); a failed page fetch yields
`content = none` with `fetchError` set to the descriptive message, while a
successful one yields truncated non-null content and no `fetchError`. -/
theorem claim_C8_enrichment_isolation (apiKey : Option String)
    (presp dresp : Except String HttpResponse)
    (pageOrc : String → Except String HttpResponse) (q : String)
    (fetchCount : Nat) (n : String) (i : Nat) (r : SearchResult) (e : String)
    (hfail : fetchWebPage (pageOrc r.url) r.url = Except.error e) :
    (searchAndFetch apiKey presp dresp pageOrc q fetchCount n).fetchedContent.length =
      min fetchCount
        (searchAndFetch apiKey presp dresp pageOrc q fetchCount n).searchResults.length ∧
    ((searchAndFetch apiKey presp dresp pageOrc q fetchCount n).fetchedContent.get? i =
      (((searchAndFetch apiKey presp dresp pageOrc q fetchCount n).searchResults.take
          fetchCount).get? i).map
        (fun r2 => enrichResult (pageOrc r2.url) r2)) ∧
    enrichResult (pageOrc r.url) r = ⟨r.title, r.url, r.snippet, r.rank, none, some e⟩ ∧
    (∀ (r2 : SearchResult) (c : String),
      fetchWebPage (pageOrc r2.url) r2.url = Except.ok c →
      enrichResult (pageOrc r2.url) r2 =
        ⟨r2.title, r2.url, r2.snippet, r2.rank, some (strTake c 5000), none⟩) := by
  refine ⟨?_, ?_, ?_, ?_⟩
  · show (((searchWeb apiKey presp dresp q fetchCount n).results.take fetchCount).map
        (fun r2 => enrichResult (pageOrc r2.url) r2)).length = _
    rw [List.length_map, List.length_take]
    rfl
  · show (((searchWeb apiKey presp dresp q fetchCount n).results.take fetchCount).map
        (fun r2 => enrichResult (pageOrc r2.url) r2)).get? i = _
    rw [List.get?_map]
    rfl
  · unfold enrichResult
    rw [hfail]
  · intro r2 c h
    unfold enrichResult
    rw [h]

/-- Witness for C8: two generic results; the first page fetch rejects, the
second succeeds. -/
theorem claim_C8_enrichment_isolation_witness :
    (searchAndFetch none (Except.error ("x"))
        (Except.ok ⟨true, ("OK"),
          ("<a href=\"http://a.com\">A</a><a href=\"http://b.com\">B</a>")⟩)
        (fun u => if u = ("http://a.com") then Except.error ("boom")
                  else Except.ok ⟨true, ("OK"), ("hello world")⟩)
        ("q") 2 ("t")).fetchedContent.length =
      min 2
        (searchAndFetch none (Except.error ("x"))
          (Except.ok ⟨true, ("OK"),
            ("<a href=\"http://a.com\">A</a><a href=\"http://b.com\">B</a>")⟩)
          (fun u => if u = ("http://a.com") then Except.error ("boom")
                    else Except.ok ⟨true, ("OK"), ("hello world")⟩)
          ("q") 2 ("t")).searchResults.length ∧
    ((searchAndFetch none (Except.error ("x"))
        (Except.ok ⟨true, ("OK"),
          ("<a href=\"http://a.com\">A</a><a href=\"http://b.com\">B</a>")⟩)
        (fun u => if u = ("http://a.com") then Except.error ("boom")
                  else Except.ok ⟨true, ("OK"), ("hello world")⟩)
        ("q") 2 ("t")).fetchedContent.get? 0 =
      (((searchAndFetch none (Except.error ("x"))
          (Except.ok ⟨true, ("OK"),
            ("<a href=\"http://a.com\">A</a><a href=\"http://b.com\">B</a>")⟩)
          (fun u => if u = ("http://a.com") then Except.error ("boom")
                    else Except.ok ⟨true, ("OK"), ("hello world")⟩)
          ("q") 2 ("t")).searchResults.take 2).get? 0).map
        (fun r2 => enrichResult
          (if r2.url = ("http://a.com") then Except.error ("boom")
           else Except.ok ⟨true, ("OK"), ("hello world")⟩) r2)) ∧
    enrichResult (Except.error ("boom"))
        (⟨("A"), ("http://a.com"), (""), 1⟩ : SearchResult) =
      ⟨("A"), ("http://a.com"), (""), 1, none,
        some (("Failed to fetch http://a.com: boom"))⟩ ∧
    (∀ (r2 : SearchResult) (c : String),
      fetchWebPage
          (if r2.url = ("http://a.com") then Except.error ("boom")
           else Except.ok ⟨true, ("OK"), ("hello world")⟩) r2.url = Except.ok c →
      enrichResult
          (if r2.url = ("http://a.com") then Except.error ("boom")
           else Except.ok ⟨true, ("OK"), ("hello world")⟩) r2 =
        ⟨r2.title, r2.url, r2.snippet, r2.rank, some (strTake c 5000), none⟩) :=
  claim_C8_enrichment_isolation none (Except.error ("x"))
    (Except.ok ⟨true, ("OK"),
      ("<a href=\"http://a.com\">A</a><a href=\"http://b.com\">B</a>")⟩)
    (fun u => if u = ("http://a.com") then Except.error ("boom")
              else Except.ok ⟨true, ("OK"), ("hello world")⟩)
    ("q") 2 ("t") 0 (⟨("A"), ("http://a.com"), (""), 1⟩ : SearchResult)
    (("Failed to fetch http://a.com: boom")) rfl

end WebSearch
